import Mathlib

set_option linter.unusedVariables false

/-!
Shallow embedding of the paigeant workflow-orchestration core
(`src/paigeant/contracts.py`, `src/paigeant/dispatch.py`,
`src/paigeant/execute.py`, `src/paigeant/agent/wrapper.py`,
`src/paigeant/persistence/sqlite.py`).

Conventions of the embedding:
* JSON text on the wire is abstracted by its parse tree (`Json` below);
  pydantic guarantees text and tree are in bijection for valid documents.
* Python `dict`s are insertion-ordered association lists.
* Python `datetime` values are carried as their ISO-8601 strings.
* A Python function that can raise is modelled with `Except`; the error
  string names the exception the interpreter would raise.
* Methods that mutate `self` return the updated value.
-/

namespace Paigeant

/-- A JSON value (the wire format of envelopes, and the type of the
`Any`-typed payload / output / argument values of the Python source). -/
inductive Json where
  | null : Json
  | str (s : String) : Json
  | num (n : Int) : Json
  | bool (b : Bool) : Json
  | arr (items : List Json) : Json
  | obj (fields : List (String × Json)) : Json
  deriving Repr

mutual

/-- Structural equality of JSON values (Python `==` on parse trees). -/
def Json.beq : Json → Json → Bool
  | .null, .null => true
  | .str a, .str b => a == b
  | .num a, .num b => a == b
  | .bool a, .bool b => a == b
  | .arr a, .arr b => Json.beqList a b
  | .obj a, .obj b => Json.beqFields a b
  | _, _ => false

def Json.beqList : List Json → List Json → Bool
  | [], [] => true
  | x :: xs, y :: ys => Json.beq x y && Json.beqList xs ys
  | _, _ => false

def Json.beqFields : List (String × Json) → List (String × Json) → Bool
  | [], [] => true
  | (k1, v1) :: xs, (k2, v2) :: ys => k1 == k2 && Json.beq v1 v2 && Json.beqFields xs ys
  | _, _ => false

end

mutual

theorem Json.beq_refl : ∀ a : Json, Json.beq a a = true
  | .null => by simp [Json.beq]
  | .str s => by simp [Json.beq]
  | .num n => by simp [Json.beq]
  | .bool b => by simp [Json.beq]
  | .arr items => by simp [Json.beq, Json.beqList_refl items]
  | .obj fields => by simp [Json.beq, Json.beqFields_refl fields]

theorem Json.beqList_refl : ∀ l : List Json, Json.beqList l l = true
  | [] => by simp [Json.beqList]
  | x :: xs => by simp [Json.beqList, Json.beq_refl x, Json.beqList_refl xs]

theorem Json.beqFields_refl : ∀ l : List (String × Json), Json.beqFields l l = true
  | [] => by simp [Json.beqFields]
  | (k, v) :: xs => by simp [Json.beqFields, Json.beq_refl v, Json.beqFields_refl xs]

end

mutual

theorem Json.beq_sound : ∀ a b : Json, Json.beq a b = true → a = b
  | .null, .null, _ => rfl
  | .str a, .str b, h => by simp [Json.beq] at h; simp [h]
  | .num a, .num b, h => by simp [Json.beq] at h; simp [h]
  | .bool a, .bool b, h => by simp [Json.beq] at h; simp [h]
  | .arr a, .arr b, h => by
      simp [Json.beq] at h
      simp [Json.beqList_sound a b h]
  | .obj a, .obj b, h => by
      simp [Json.beq] at h
      simp [Json.beqFields_sound a b h]
  | .null, .str _, h => by simp [Json.beq] at h
  | .null, .num _, h => by simp [Json.beq] at h
  | .null, .bool _, h => by simp [Json.beq] at h
  | .null, .arr _, h => by simp [Json.beq] at h
  | .null, .obj _, h => by simp [Json.beq] at h
  | .str _, .null, h => by simp [Json.beq] at h
  | .str _, .num _, h => by simp [Json.beq] at h
  | .str _, .bool _, h => by simp [Json.beq] at h
  | .str _, .arr _, h => by simp [Json.beq] at h
  | .str _, .obj _, h => by simp [Json.beq] at h
  | .num _, .null, h => by simp [Json.beq] at h
  | .num _, .str _, h => by simp [Json.beq] at h
  | .num _, .bool _, h => by simp [Json.beq] at h
  | .num _, .arr _, h => by simp [Json.beq] at h
  | .num _, .obj _, h => by simp [Json.beq] at h
  | .bool _, .null, h => by simp [Json.beq] at h
  | .bool _, .str _, h => by simp [Json.beq] at h
  | .bool _, .num _, h => by simp [Json.beq] at h
  | .bool _, .arr _, h => by simp [Json.beq] at h
  | .bool _, .obj _, h => by simp [Json.beq] at h
  | .arr _, .null, h => by simp [Json.beq] at h
  | .arr _, .str _, h => by simp [Json.beq] at h
  | .arr _, .num _, h => by simp [Json.beq] at h
  | .arr _, .bool _, h => by simp [Json.beq] at h
  | .arr _, .obj _, h => by simp [Json.beq] at h
  | .obj _, .null, h => by simp [Json.beq] at h
  | .obj _, .str _, h => by simp [Json.beq] at h
  | .obj _, .num _, h => by simp [Json.beq] at h
  | .obj _, .bool _, h => by simp [Json.beq] at h
  | .obj _, .arr _, h => by simp [Json.beq] at h

theorem Json.beqList_sound : ∀ a b : List Json, Json.beqList a b = true → a = b
  | [], [], _ => rfl
  | x :: xs, y :: ys, h => by
      simp [Json.beqList] at h
      simp [Json.beq_sound x y h.1, Json.beqList_sound xs ys h.2]
  | [], _ :: _, h => by simp [Json.beqList] at h
  | _ :: _, [], h => by simp [Json.beqList] at h

theorem Json.beqFields_sound :
    ∀ a b : List (String × Json), Json.beqFields a b = true → a = b
  | [], [], _ => rfl
  | (k1, v1) :: xs, (k2, v2) :: ys, h => by
      simp [Json.beqFields] at h
      simp [h.1.1, Json.beq_sound v1 v2 h.1.2, Json.beqFields_sound xs ys h.2]
  | [], _ :: _, h => by simp [Json.beqFields] at h
  | _ :: _, [], h => by simp [Json.beqFields] at h

end

instance : DecidableEq Json := fun a b =>
  decidable_of_iff (Json.beq a b = true)
    ⟨Json.beq_sound a b, fun h => h ▸ Json.beq_refl a⟩

/-- `contracts.SerializedDeps`: transport form of a step input.
`data: Optional[dict]`, `type: Optional[str]`, `module: Optional[str]`. -/
structure SerializedDeps where
  data : Option (List (String × Json))
  type : Option String
  module : Option String
  deriving DecidableEq, Repr

/-- `contracts.ActivitySpec`: one step in a workflow. -/
structure ActivitySpec where
  agent_name : String
  prompt : String
  deps : Option SerializedDeps := none
  arguments : List (String × Json) := []
  deriving DecidableEq, Repr

/-- `contracts.RoutingSlip`: remaining, executed and compensating activities.
`inserted_steps` is a Python `int` (default `0`). -/
structure RoutingSlip where
  itinerary : List ActivitySpec := []
  executed : List ActivitySpec := []
  compensations : List ActivitySpec := []
  inserted_steps : Int := 0
  deriving DecidableEq, Repr

/-- `RoutingSlip.next_step`: `self.itinerary[0] if self.itinerary else None`. -/
def RoutingSlip.next_step (s : RoutingSlip) : Option ActivitySpec :=
  s.itinerary.head?

/-- `RoutingSlip.is_finished`: `not self.itinerary`. -/
def RoutingSlip.is_finished (s : RoutingSlip) : Bool :=
  s.itinerary.isEmpty

/-- `RoutingSlip.mark_complete`: if the itinerary head equals `step`, pop it
and append it to `executed`; otherwise do nothing. -/
def RoutingSlip.mark_complete (s : RoutingSlip) (step : ActivitySpec) : RoutingSlip :=
  match s.itinerary with
  | [] => s
  | first :: rest =>
      if first = step then
        { s with itinerary := rest, executed := s.executed ++ [first] }
      else s

/-- `RoutingSlip.insert_activities(new_steps, limit)`:
`remaining = max(0, limit - self.inserted_steps)`;
`allowed = new_steps[:remaining]`; if `allowed` is empty return `0`;
otherwise splice `allowed` in at index 1
(`itinerary[:1] + allowed + itinerary[1:]`), bump `inserted_steps` by
`len(allowed)` and return `len(allowed)`.
Returns the updated slip together with the returned count. -/
def RoutingSlip.insert_activities
    (s : RoutingSlip) (new_steps : List ActivitySpec) (limit : Int) :
    RoutingSlip × Nat :=
  let remaining : Int := max 0 (limit - s.inserted_steps)
  let allowed := new_steps.take remaining.toNat
  if allowed.isEmpty then (s, 0)
  else
    ({ s with
        itinerary := s.itinerary.take 1 ++ allowed ++ s.itinerary.drop 1,
        inserted_steps := s.inserted_steps + allowed.length },
     allowed.length)

/-- `RoutingSlip.previous_step`: `self.executed[-1] if self.executed else None`. -/
def RoutingSlip.previous_step (s : RoutingSlip) : Option ActivitySpec :=
  s.executed.getLast?

/-- `contracts.PaigeantMessage`: the envelope exchanged over the bus.
These are exactly the pydantic fields declared in `contracts.py`; note
that no `activity_registry` field is declared there (the keyword argument
`activity_registry=...` that `dispatch.py` passes to the constructor is
silently dropped by pydantic, since the model does not declare it). -/
structure PaigeantMessage where
  message_id : String
  correlation_id : String
  trace_id : Option String := none
  timestamp : String
  obo_token : Option String := none
  signature : Option String := none
  routing_slip : RoutingSlip
  payload : List (String × Json) := []
  spec_version : String := "1.0"
  deriving DecidableEq, Repr

/-- Result of `PaigeantMessage.forward_to_next_step` (`contracts.py`):
the envelope after the method ran, the publish it performed (topic and
published envelope), if any, and the repository calls it made.  The Python
method receives only the transport — it has no repository parameter — and
its body contains no repository call, so `repo_calls` is always empty;
the field records that fact explicitly. -/
structure ForwardResult where
  message : PaigeantMessage
  published : Option (String × PaigeantMessage)
  repo_calls : List String
  deriving DecidableEq, Repr

/-- `PaigeantMessage.forward_to_next_step(transport)`:
read the current head; if none, return; otherwise `mark_complete` it,
read the new head; if none, return (nothing further happens); otherwise
publish `self` on topic `next_activity.agent_name`. -/
def PaigeantMessage.forward_to_next_step (m : PaigeantMessage) : ForwardResult :=
  match m.routing_slip.next_step with
  | none => { message := m, published := none, repo_calls := [] }
  | some current =>
      let m2 := { m with routing_slip := m.routing_slip.mark_complete current }
      match m2.routing_slip.next_step with
      | none => { message := m2, published := none, repo_calls := [] }
      | some next_activity =>
          { message := m2,
            published := some (next_activity.agent_name, m2),
            repo_calls := [] }

/-- Result of a successful `WorkflowDispatcher.dispatch_workflow` run:
the envelope built, the topic published to, the returned correlation id,
and the repository calls made.  The Python method has no repository
parameter and its body contains no repository call, so `repo_calls` is
always empty; the field records that fact explicitly. -/
structure DispatchResult where
  message : PaigeantMessage
  topic : String
  correlation_id : String
  repo_calls : List String
  deriving DecidableEq, Repr

/-- `WorkflowDispatcher.dispatch_workflow(transport, variables, obo_token)`
(`dispatch.py`): build `RoutingSlip(itinerary=self._itinerary)`, build the
envelope (`trace_id` is never passed, so it keeps its default `None`; the
`activity_registry=...` keyword is dropped because `PaigeantMessage`
declares no such field), take `routing_slip.next_step()` as the first
step, and publish on `first_step.agent_name`.  With an empty itinerary,
`next_step()` is `None` and evaluating `first_step.agent_name` raises
`AttributeError` before any publish.  The freshly minted uuids and the
clock are parameters of the embedding (`correlation_id`, `message_id`,
`timestamp`). -/
def dispatch_workflow (itinerary : List ActivitySpec)
    (vars : List (String × Json)) (obo_token : Option String)
    (correlation_id message_id timestamp : String) :
    Except String DispatchResult :=
  let routing_slip : RoutingSlip := { itinerary := itinerary }
  let message : PaigeantMessage :=
    { message_id := message_id, correlation_id := correlation_id,
      timestamp := timestamp, obo_token := obo_token,
      routing_slip := routing_slip, payload := vars }
  match routing_slip.next_step with
  | none => .error "AttributeError: NoneType object has no attribute agent_name"
  | some first_step =>
      .ok { message := message, topic := first_step.agent_name,
            correlation_id := correlation_id, repo_calls := [] }

/-- Python dict assignment `d[k] = v`: replace in place if the key exists,
otherwise append (insertion order). -/
def dictSet : List (String × Json) → String → Json → List (String × Json)
  | [], k, v => [(k, v)]
  | (k1, v1) :: rest, k, v =>
      if k1 = k then (k, v) :: rest else (k1, v1) :: dictSet rest k v

/-- Keys of a Python dict modelled as an association list. -/
def dictKeys (d : List (String × Json)) : List String :=
  d.map Prod.fst

/-- Python `dict.get(k)`: first binding of `k`, if any. -/
def dictGet (d : List (String × Json)) (k : String) : Option Json :=
  match d with
  | [] => none
  | (k1, v1) :: rest => if k1 = k then some v1 else dictGet rest k

/-- Agent names of the executed steps of an envelope's routing slip. -/
def executedNames (m : PaigeantMessage) : List String :=
  m.routing_slip.executed.map ActivitySpec.agent_name

/-- Success path of `ActivityExecutor._handle_activity` (`execute.py`,
after the agent call returned): insert the agent's `added_activities` into
the slip, record `payload[self._agent_name] = step_output`, then
`forward_to_next_step`.  `agent_name` is the executor's topic, which the
routing invariant makes equal to the head's `agent_name`; `limit` is the
insertion limit the `insert_activities` call carries.  The repository
mirror writes (`update_payload`, `mark_step_completed`) do not touch the
envelope and are omitted here. -/
def handle_activity_success (agent_name : String) (m : PaigeantMessage)
    (step_output : Json) (added : List ActivitySpec) (limit : Int) :
    ForwardResult :=
  let slip1 := (m.routing_slip.insert_activities added limit).1
  let m1 := { m with
      routing_slip := slip1,
      payload := dictSet m.payload agent_name step_output }
  m1.forward_to_next_step

/-- `ctx.deps.activity_registry.get(agent_name)` in
`agent/wrapper.py` — the insertion catalog is a dict from agent name to
`ActivitySpec`. -/
def lookupRegistry (registry : List (String × ActivitySpec)) (name : String) :
    Option ActivitySpec :=
  match registry with
  | [] => none
  | (k, v) :: rest => if k = name then some v else lookupRegistry rest name

/-- The loop body of `_edit_itinerary` in
`agent/wrapper.py` (`create_edit_itinerary_tool`), iterating over
`follow_up_agents.items()` in order.  For each `(agent_name, prompt)`:
`registered = ctx.deps.activity_registry.get(agent_name)`; when
`registered` is `None` the code only logs a warning and falls through;
`if prompt:` (Python truthiness — `None` and the empty string are falsy)
it assigns `registered.prompt = prompt`, which raises `AttributeError`
when `registered` is `None`; finally `steps.append(registered)` appends
whatever `registered` is — including `None`. -/
def edit_itinerary_follow_ups (registry : List (String × ActivitySpec)) :
    List (String × Option String) → Except String (List (Option ActivitySpec))
  | [] => .ok []
  | (agent_name, prompt) :: rest =>
      let registered := lookupRegistry registry agent_name
      match prompt with
      | some p =>
          if p = "" then
            (edit_itinerary_follow_ups registry rest).map
              (fun steps => registered :: steps)
          else
            match registered with
            | none => .error "AttributeError: NoneType object has no attribute prompt"
            | some act =>
                (edit_itinerary_follow_ups registry rest).map
                  (fun steps => some { act with prompt := p } :: steps)
      | none =>
          (edit_itinerary_follow_ups registry rest).map
            (fun steps => registered :: steps)

/-- `_edit_itinerary(ctx, run_output, follow_up_agents)` in
`agent/wrapper.py`, restricted to the `added_activities` it computes:
`if not follow_up_agents:` (absent or empty dict) the added list is empty;
otherwise it is the list accumulated by the loop. -/
def edit_itinerary_added (registry : List (String × ActivitySpec))
    (follow_up_agents : Option (List (String × Option String))) :
    Except String (List (Option ActivitySpec)) :=
  match follow_up_agents with
  | none => .ok []
  | some [] => .ok []
  | some l => edit_itinerary_follow_ups registry l

/-- One row of the SQLite `step_history` table
(`persistence/sqlite.py`): columns `id` (autoincrement primary key),
`correlation_id`, `step_name`, `started_at`, `completed_at`, `status`,
`output`.  The schema has no `run_id` column and no unique index. -/
structure SqliteStepRow where
  id : Nat
  correlation_id : String
  step_name : String
  started_at : Option String
  completed_at : Option String
  status : Option String
  output : Option Json
  deriving DecidableEq, Repr

/-- One row of the SQLite `workflows` table. -/
structure SqliteWorkflowRow where
  correlation_id : String
  routing_slip : Json
  payload : Json
  status : String
  deriving DecidableEq, Repr

/-- The two tables of `SQLiteWorkflowRepository`; `next_id` models the
`AUTOINCREMENT` counter of `step_history.id`. -/
structure SqliteDb where
  workflows : List SqliteWorkflowRow := []
  step_history : List SqliteStepRow := []
  next_id : Nat := 1
  deriving DecidableEq, Repr

namespace SqliteRepo

/-- `SQLiteWorkflowRepository.create_workflow`: INSERT a `workflows` row
with status `in_progress` (`correlation_id` is the primary key, so a
duplicate insert raises). -/
def create_workflow (db : SqliteDb) (correlation_id : String)
    (routing_slip payload : Json) : Except String SqliteDb :=
  if db.workflows.any (fun w => w.correlation_id = correlation_id) then
    .error "IntegrityError: UNIQUE constraint failed"
  else
    .ok { db with workflows := db.workflows ++
      [{ correlation_id := correlation_id, routing_slip := routing_slip,
         payload := payload, status := "in_progress" }] }

/-- `SQLiteWorkflowRepository.mark_step_started`: a plain
`INSERT INTO step_history (correlation_id, step_name, started_at)` —
it checks nothing and always appends a fresh row. -/
def mark_step_started (db : SqliteDb) (correlation_id step_name : String)
    (now : String) : SqliteDb :=
  { db with
    step_history := db.step_history ++
      [{ id := db.next_id, correlation_id := correlation_id,
         step_name := step_name, started_at := some now,
         completed_at := none, status := none, output := none }],
    next_id := db.next_id + 1 }

/-- `SQLiteWorkflowRepository.mark_step_completed`: UPDATE every
`step_history` row whose `(correlation_id, step_name)` matches, setting
`completed_at`, `status` and `output` (`json.dumps(output or {})`). -/
def mark_step_completed (db : SqliteDb) (correlation_id step_name : String)
    (status : String) (output : Option (List (String × Json)))
    (now : String) : SqliteDb :=
  { db with
    step_history := db.step_history.map (fun r =>
      if r.correlation_id = correlation_id ∧ r.step_name = step_name then
        { r with completed_at := some now, status := some status,
                 output := some (Json.obj (output.getD [])) }
      else r) }

/-- `SQLiteWorkflowRepository.mark_workflow_completed`: UPDATE the status
of the matching `workflows` row. -/
def mark_workflow_completed (db : SqliteDb) (correlation_id : String)
    (status : String) : SqliteDb :=
  { db with
    workflows := db.workflows.map (fun w =>
      if w.correlation_id = correlation_id then { w with status := status }
      else w) }

end SqliteRepo

/-! ### Serialization (`PaigeantMessage.to_json` / `from_json`)

`to_json` is `model_dump_json`: every declared field is emitted, in
declaration order, with `None` rendered as JSON `null`.  `from_json` is
`model_validate_json`, modelled as a field-by-field parser. -/

/-- Serialize an `Optional[str]` field. -/
def optStrJson : Option String → Json
  | none => .null
  | some s => .str s

/-- Serialize an `Optional[dict]` field. -/
def optFieldsJson : Option (List (String × Json)) → Json
  | none => .null
  | some f => .obj f

def SerializedDeps.toJson (d : SerializedDeps) : Json :=
  .obj [("data", optFieldsJson d.data), ("type", optStrJson d.type),
        ("module", optStrJson d.module)]

/-- Serialize the `deps` field of an `ActivitySpec`. -/
def depsJson : Option SerializedDeps → Json
  | none => .null
  | some d => d.toJson

def ActivitySpec.toJson (a : ActivitySpec) : Json :=
  .obj [("agent_name", .str a.agent_name), ("prompt", .str a.prompt),
        ("deps", depsJson a.deps), ("arguments", .obj a.arguments)]

def RoutingSlip.toJson (s : RoutingSlip) : Json :=
  .obj [("itinerary", .arr (s.itinerary.map ActivitySpec.toJson)),
        ("executed", .arr (s.executed.map ActivitySpec.toJson)),
        ("compensations", .arr (s.compensations.map ActivitySpec.toJson)),
        ("inserted_steps", .num s.inserted_steps)]

/-- `PaigeantMessage.to_json` (`model_dump_json`): the serialized envelope,
with the declared fields in declaration order. -/
def PaigeantMessage.to_json (m : PaigeantMessage) : Json :=
  .obj [("message_id", .str m.message_id),
        ("correlation_id", .str m.correlation_id),
        ("trace_id", optStrJson m.trace_id),
        ("timestamp", .str m.timestamp),
        ("obo_token", optStrJson m.obo_token),
        ("signature", optStrJson m.signature),
        ("routing_slip", m.routing_slip.toJson),
        ("payload", .obj m.payload),
        ("spec_version", .str m.spec_version)]

/-- Top-level keys of a serialized JSON object. -/
def jsonKeys : Json → List String
  | .obj fields => fields.map Prod.fst
  | _ => []

def Json.asStr : Json → Option String
  | .str s => some s
  | _ => none

def Json.asOptStr : Json → Option (Option String)
  | .null => some none
  | .str s => some (some s)
  | _ => none

def Json.asFields : Json → Option (List (String × Json))
  | .obj f => some f
  | _ => none

def Json.asOptFields : Json → Option (Option (List (String × Json)))
  | .null => some none
  | .obj f => some (some f)
  | _ => none

def Json.asInt : Json → Option Int
  | .num n => some n
  | _ => none

def Json.asArr : Json → Option (List Json)
  | .arr l => some l
  | _ => none

def parseSerializedDeps (j : Json) : Option SerializedDeps := do
  let f ← j.asFields
  let data ← (← dictGet f "data").asOptFields
  let ty ← (← dictGet f "type").asOptStr
  let md ← (← dictGet f "module").asOptStr
  pure { data := data, type := ty, module := md }

def parseOptDeps : Json → Option (Option SerializedDeps)
  | .null => some none
  | j => (parseSerializedDeps j).map some

def parseActivitySpec (j : Json) : Option ActivitySpec := do
  let f ← j.asFields
  let agent_name ← (← dictGet f "agent_name").asStr
  let prompt ← (← dictGet f "prompt").asStr
  let deps ← parseOptDeps (← dictGet f "deps")
  let arguments ← (← dictGet f "arguments").asFields
  pure { agent_name := agent_name, prompt := prompt, deps := deps,
         arguments := arguments }

/-- Parse every element of a JSON array. -/
def parseList (p : Json → Option ActivitySpec) :
    List Json → Option (List ActivitySpec)
  | [] => some []
  | j :: rest => do
      let a ← p j
      let tail ← parseList p rest
      pure (a :: tail)

def parseRoutingSlip (j : Json) : Option RoutingSlip := do
  let f ← j.asFields
  let itinerary ← parseList parseActivitySpec (← (← dictGet f "itinerary").asArr)
  let executed ← parseList parseActivitySpec (← (← dictGet f "executed").asArr)
  let compensations ←
    parseList parseActivitySpec (← (← dictGet f "compensations").asArr)
  let inserted_steps ← (← dictGet f "inserted_steps").asInt
  pure { itinerary := itinerary, executed := executed,
         compensations := compensations, inserted_steps := inserted_steps }

/-- The identifying fields of the envelope header. -/
def parseMsgIds (f : List (String × Json)) :
    Option (String × String × Option String) := do
  let message_id ← (← dictGet f "message_id").asStr
  let correlation_id ← (← dictGet f "correlation_id").asStr
  let trace_id ← (← dictGet f "trace_id").asOptStr
  pure (message_id, correlation_id, trace_id)

/-- The timestamp and token fields of the envelope header. -/
def parseMsgMeta (f : List (String × Json)) :
    Option (String × Option String × Option String) := do
  let timestamp ← (← dictGet f "timestamp").asStr
  let obo_token ← (← dictGet f "obo_token").asOptStr
  let signature ← (← dictGet f "signature").asOptStr
  pure (timestamp, obo_token, signature)

/-- `PaigeantMessage.from_json` (`model_validate_json`). -/
def PaigeantMessage.from_json (j : Json) : Option PaigeantMessage := do
  let f ← j.asFields
  let (message_id, correlation_id, trace_id) ← parseMsgIds f
  let (timestamp, obo_token, signature) ← parseMsgMeta f
  let routing_slip ← parseRoutingSlip (← dictGet f "routing_slip")
  let payload ← (← dictGet f "payload").asFields
  let spec_version ← (← dictGet f "spec_version").asStr
  pure { message_id := message_id, correlation_id := correlation_id,
         trace_id := trace_id, timestamp := timestamp,
         obo_token := obo_token, signature := signature,
         routing_slip := routing_slip, payload := payload,
         spec_version := spec_version }

/-! ### Observable envelope snapshots

The envelope is observable on the wire when the dispatcher publishes it
and when a worker re-publishes it after a step.  `ReachableSnapshot`
closes the dispatched envelope under the success path of
`ActivityExecutor._handle_activity`; the routing invariant of §4.6 (a
worker only receives envelopes whose head names its own topic) is built
in by keying the payload write to the head's `agent_name`. -/
inductive ReachableSnapshot (vars : List (String × Json)) :
    PaigeantMessage → Prop where
  | dispatched (itinerary : List ActivitySpec) (obo : Option String)
      (cid mid ts : String) (r : DispatchResult)
      (hd : dispatch_workflow itinerary vars obo cid mid ts = .ok r) :
      ReachableSnapshot vars r.message
  | stepped (m : PaigeantMessage) (head : ActivitySpec) (out : Json)
      (added : List ActivitySpec) (limit : Int)
      (hm : ReachableSnapshot vars m)
      (hh : m.routing_slip.next_step = some head) :
      ReachableSnapshot vars
        (handle_activity_success head.agent_name m out added limit).message

/-! ### Helper lemmas -/

theorem parseSerializedDeps_toJson (d : SerializedDeps) :
    parseSerializedDeps d.toJson = some d := by
  obtain ⟨a, b, c⟩ := d
  cases a <;> cases b <;> cases c <;> rfl

theorem parseOptDeps_depsJson (o : Option SerializedDeps) :
    parseOptDeps (depsJson o) = some o := by
  cases o with
  | none => rfl
  | some d =>
      obtain ⟨a, b, c⟩ := d
      cases a <;> cases b <;> cases c <;> rfl

theorem parseActivitySpec_toJson (a : ActivitySpec) :
    parseActivitySpec a.toJson = some a := by
  obtain ⟨an, pr, deps, args⟩ := a
  simp [ActivitySpec.toJson, parseActivitySpec, dictGet, Json.asStr,
        Json.asFields, parseOptDeps_depsJson, bind, Option.bind]

theorem parseList_toJson (l : List ActivitySpec) :
    parseList parseActivitySpec (l.map ActivitySpec.toJson) = some l := by
  induction l with
  | nil => rfl
  | cons a t ih =>
      simp [parseList, parseActivitySpec_toJson a, ih, bind, Option.bind, pure]

theorem parseRoutingSlip_toJson (s : RoutingSlip) :
    parseRoutingSlip s.toJson = some s := by
  obtain ⟨i, e, c, n⟩ := s
  simp [RoutingSlip.toJson, parseRoutingSlip, dictGet, Json.asArr,
        Json.asInt, Json.asFields, parseList_toJson, bind, Option.bind]

theorem insert_activities_snd (s : RoutingSlip) (steps : List ActivitySpec)
    (limit : Int) :
    (s.insert_activities steps limit).2 =
      (steps.take (max 0 (limit - s.inserted_steps)).toNat).length := by
  simp only [RoutingSlip.insert_activities]
  split
  · rename_i h
    simp only [List.isEmpty_iff] at h
    simp [h]
  · rfl

theorem insert_activities_itinerary (s : RoutingSlip) (steps : List ActivitySpec)
    (limit : Int) :
    (s.insert_activities steps limit).1.itinerary =
      s.itinerary.take 1 ++
        steps.take (max 0 (limit - s.inserted_steps)).toNat ++
        s.itinerary.drop 1 := by
  simp only [RoutingSlip.insert_activities]
  split
  · rename_i h
    simp only [List.isEmpty_iff] at h
    rw [h]
    simp only [List.nil_append, List.append_nil]
    exact (List.take_append_drop 1 s.itinerary).symm
  · rfl

theorem insert_activities_count (s : RoutingSlip) (steps : List ActivitySpec)
    (limit : Int) :
    (s.insert_activities steps limit).1.inserted_steps =
      s.inserted_steps + (s.insert_activities steps limit).2 := by
  simp only [RoutingSlip.insert_activities]
  split
  · simp
  · rfl

theorem insert_activities_executed (s : RoutingSlip) (steps : List ActivitySpec)
    (limit : Int) :
    (s.insert_activities steps limit).1.executed = s.executed := by
  simp only [RoutingSlip.insert_activities]
  split <;> rfl

theorem insert_activities_compensations (s : RoutingSlip)
    (steps : List ActivitySpec) (limit : Int) :
    (s.insert_activities steps limit).1.compensations = s.compensations := by
  simp only [RoutingSlip.insert_activities]
  split <;> rfl

theorem take_toNat_eq_take_min (steps : List ActivitySpec) (R : Nat) :
    steps.take R = steps.take (min steps.length R) := by
  rw [List.take_eq_take]
  omega

theorem mark_complete_head (s : RoutingSlip) (head : ActivitySpec)
    (t : List ActivitySpec) (hit : s.itinerary = head :: t) :
    s.mark_complete head =
      { s with itinerary := t, executed := s.executed ++ [head] } := by
  simp [RoutingSlip.mark_complete, hit]

theorem forward_message_of_next (m : PaigeantMessage) (head : ActivitySpec)
    (hh : m.routing_slip.next_step = some head) :
    m.forward_to_next_step.message =
      { m with routing_slip := m.routing_slip.mark_complete head } := by
  simp only [PaigeantMessage.forward_to_next_step, hh]
  split <;> rfl

theorem dictKeys_dictSet (d : List (String × Json)) (k : String) (v : Json) :
    ∀ x ∈ dictKeys (dictSet d k v), x = k ∨ x ∈ dictKeys d := by
  induction d with
  | nil => simp [dictSet, dictKeys]
  | cons p rest ih =>
      obtain ⟨k1, v1⟩ := p
      by_cases hk : k1 = k
      · subst hk
        intro x hx
        simp only [dictSet, ite_true] at hx
        simp only [dictKeys, List.map_cons, List.mem_cons] at hx
        simp only [dictKeys, List.map_cons, List.mem_cons]
        tauto
      · intro x hx
        simp only [dictSet, if_neg hk, dictKeys, List.map_cons,
          List.mem_cons] at hx
        simp only [dictKeys, List.map_cons, List.mem_cons]
        rcases hx with h1 | h2
        · tauto
        · rcases ih x h2 with h3 | h4 <;> tauto

theorem next_step_eq_cons (s : RoutingSlip) (head : ActivitySpec)
    (hh : s.next_step = some head) :
    ∃ t, s.itinerary = head :: t := by
  cases hit : s.itinerary with
  | nil => simp [RoutingSlip.next_step, hit] at hh
  | cons a t =>
      simp [RoutingSlip.next_step, hit] at hh
      subst hh
      exact ⟨t, rfl⟩

/-! ### Claim theorems -/

def actA : ActivitySpec := { agent_name := "agentA", prompt := "promptA" }

def actB : ActivitySpec := { agent_name := "agentB", prompt := "promptB" }

def actC : ActivitySpec := { agent_name := "agentC", prompt := "promptC" }

def c1_db1 : SqliteDb :=
  { workflows := [{ correlation_id := "wf-1", routing_slip := Json.obj [],
                    payload := Json.obj [], status := "in_progress" }],
    step_history := [], next_id := 1 }

/-- Claim C1, evaluated on the code: `mark_step_started` of the SQLite
repository backend is not idempotent.  Starting from a fresh workflow row,
a second `mark_step_started` with the same `(correlation_id, step_name)`
(and the same clock reading) inserts a second `step_history` row: the
history has two rows instead of one and the stored state differs from the
state after the first call. -/
theorem sqlite_mark_step_started_not_idempotent :
    SqliteRepo.create_workflow {} "wf-1" (Json.obj []) (Json.obj []) = .ok c1_db1 ∧
    (SqliteRepo.mark_step_started c1_db1 "wf-1" "step1" "t0").step_history.length = 1 ∧
    (SqliteRepo.mark_step_started
      (SqliteRepo.mark_step_started c1_db1 "wf-1" "step1" "t0")
      "wf-1" "step1" "t0").step_history.length = 2 ∧
    SqliteRepo.mark_step_started
      (SqliteRepo.mark_step_started c1_db1 "wf-1" "step1" "t0")
      "wf-1" "step1" "t0" ≠
      SqliteRepo.mark_step_started c1_db1 "wf-1" "step1" "t0" := by
  refine ⟨rfl, rfl, rfl, ?_⟩
  decide

def c2_msg : PaigeantMessage :=
  { message_id := "mid-2", correlation_id := "cid-2", timestamp := "ts-2",
    routing_slip := { itinerary := [actA] } }

/-- Claim C2, evaluated on the code at the failing input: for an envelope
whose itinerary holds exactly one remaining step, `forward_to_next_step`
pops the head into `executed` and then neither publishes nor makes any
repository call — in particular the workflow is never marked `completed`
(the method does not even receive a repository). -/
theorem forward_terminal_no_repository_call :
    c2_msg.forward_to_next_step =
      { message := { c2_msg with
          routing_slip := { itinerary := [], executed := [actA] } },
        published := none, repo_calls := [] } := by
  decide

/-- Claim C3: on a routing slip with current head `head`,
`insert_activities(steps, limit)` returns
`min |steps| (max 0 (limit - inserted_steps))`, splices exactly that
prefix of `steps` immediately after the unchanged head (preserving their
order, dropping the steps beyond the cap silently), increments
`inserted_steps` by the number actually inserted, and leaves `executed`
and `compensations` untouched. -/
theorem insert_activities_spec (s : RoutingSlip) (steps : List ActivitySpec)
    (limit : Int) (head : ActivitySpec) (t : List ActivitySpec)
    (hit : s.itinerary = head :: t) :
    (s.insert_activities steps limit).2 =
      min steps.length (max 0 (limit - s.inserted_steps)).toNat ∧
    (s.insert_activities steps limit).1.itinerary =
      head :: (steps.take
        (min steps.length (max 0 (limit - s.inserted_steps)).toNat) ++ t) ∧
    (s.insert_activities steps limit).1.inserted_steps =
      s.inserted_steps +
        (min steps.length (max 0 (limit - s.inserted_steps)).toNat : Nat) ∧
    (s.insert_activities steps limit).1.executed = s.executed ∧
    (s.insert_activities steps limit).1.compensations = s.compensations := by
  refine ⟨?_, ?_, ?_, insert_activities_executed s steps limit,
    insert_activities_compensations s steps limit⟩
  · rw [insert_activities_snd, List.length_take, Nat.min_comm]
  · rw [insert_activities_itinerary, hit, ← take_toNat_eq_take_min]
    simp
  · rw [insert_activities_count, insert_activities_snd, List.length_take,
      Nat.min_comm]

def c3_slip : RoutingSlip := { itinerary := [actA] }

/-- Witness for claim C3 at scenario S4: head `actA`, two new steps,
`limit = 1`, so exactly one step is inserted after the head. -/
theorem insert_activities_spec_witness :
    (c3_slip.insert_activities [actB, actC] 1).2 = 1 ∧
    (c3_slip.insert_activities [actB, actC] 1).1.itinerary = [actA, actB] ∧
    (c3_slip.insert_activities [actB, actC] 1).1.inserted_steps = 1 ∧
    (c3_slip.insert_activities [actB, actC] 1).1.executed = [] ∧
    (c3_slip.insert_activities [actB, actC] 1).1.compensations = [] := by
  have h := insert_activities_spec c3_slip [actB, actC] 1 actA [] rfl
  simpa [c3_slip] using h

/-- Claim C4, evaluated on the code: every serialized envelope carries
exactly the nine declared fields (including `spec_version`), the routing
slip carries `itinerary`, `executed`, `compensations` and
`inserted_steps` — but no `activity_registry` key is ever emitted,
because `PaigeantMessage` declares no such field. -/
theorem envelope_wire_fields (m : PaigeantMessage) :
    jsonKeys m.to_json =
      ["message_id", "correlation_id", "trace_id", "timestamp", "obo_token",
       "signature", "routing_slip", "payload", "spec_version"] ∧
    "activity_registry" ∉ jsonKeys m.to_json ∧
    jsonKeys m.routing_slip.toJson =
      ["itinerary", "executed", "compensations", "inserted_steps"] := by
  refine ⟨rfl, ?_, rfl⟩
  have h1 : jsonKeys m.to_json =
      ["message_id", "correlation_id", "trace_id", "timestamp", "obo_token",
       "signature", "routing_slip", "payload", "spec_version"] := rfl
  rw [h1]
  decide

/-- Claim C5: deserializing the serialization of any envelope of the data
model returns the same envelope: `from_json (to_json E) = E`. -/
theorem serialization_round_trip (m : PaigeantMessage) :
    PaigeantMessage.from_json m.to_json = some m := by
  obtain ⟨mid, cid, tid, ts, obo, sig, slip, pl, sv⟩ := m
  simp [PaigeantMessage.to_json, PaigeantMessage.from_json, parseMsgIds,
        parseMsgMeta, dictGet, Json.asStr, Json.asOptStr, Json.asFields,
        parseRoutingSlip_toJson, bind, Option.bind]
  cases tid <;> cases obo <;> cases sig <;>
    simp [Json.asOptStr, optStrJson, pure]

def c6_result : DispatchResult :=
  { message := { message_id := "mid-6", correlation_id := "cid-6",
                 timestamp := "ts-6", routing_slip := { itinerary := [actA] } },
    topic := "agentA", correlation_id := "cid-6", repo_calls := [] }

/-- Claim C6, evaluated on the code at the failing input: dispatching a
one-step workflow publishes the envelope on the first step topic and
returns the minted correlation id, but makes no repository call at all
(no `create_workflow` row) and leaves `trace_id = None` instead of
copying the correlation id. -/
theorem dispatch_no_row_no_trace :
    dispatch_workflow [actA] [] none "cid-6" "mid-6" "ts-6" = .ok c6_result ∧
    c6_result.message.trace_id = none ∧
    c6_result.repo_calls = [] := ⟨rfl, rfl, rfl⟩

/-- Claim C7: dispatching with an empty itinerary fails with an error
(`first_step.agent_name` on `None` raises `AttributeError`) before the
publish is reached, so nothing is published; the dispatcher makes no
repository call on any path, so no repository row is created. -/
theorem dispatch_empty_itinerary_fails (vars : List (String × Json))
    (obo : Option String) (cid mid ts : String) :
    dispatch_workflow [] vars obo cid mid ts =
      .error "AttributeError: NoneType object has no attribute agent_name" := rfl

/-- Claim C8, evaluated on the code at the failing input: a follow-up
name absent from the activity registry is not skipped — with no prompt
override the tool appends `None` to `added_activities` (which the
executor would then insert into the itinerary), and with a prompt
override it raises `AttributeError` instead of continuing. -/
theorem unknown_follow_up_not_skipped :
    edit_itinerary_added [] (some [("ghost", none)]) = .ok [none] ∧
    edit_itinerary_added [] (some [("ghost", some "override prompt")]) =
      .error "AttributeError: NoneType object has no attribute prompt" :=
  ⟨rfl, rfl⟩

def c9_result : DispatchResult :=
  { message := { message_id := "mid-9", correlation_id := "cid-9",
                 timestamp := "ts-9", routing_slip := { itinerary := [actA] },
                 payload := [("k", Json.str "v")] },
    topic := "agentA", correlation_id := "cid-9", repo_calls := [] }

/-- Counterexample to claim C9 as stated: the envelope snapshot published
by `dispatch_workflow` with variables `{k: v}` has payload key `k`
although `executed` is empty, so the payload keys are not a subset of the
executed agent names. -/
theorem payload_monotonicity_counterexample :
    dispatch_workflow [actA] [("k", Json.str "v")] none "cid-9" "mid-9" "ts-9" =
      .ok c9_result ∧
    "k" ∈ dictKeys c9_result.message.payload ∧
    "k" ∉ executedNames c9_result.message := by
  refine ⟨rfl, ?_, ?_⟩ <;> decide

/-- Claim C9 as amended: at every observable envelope snapshot — the
envelope as dispatched and the envelope as forwarded after each
successful step — the payload keys are contained in the executed agent
names together with the keys of the variables supplied at dispatch. -/
theorem payload_keys_bounded (vars : List (String × Json))
    (m : PaigeantMessage) (h : ReachableSnapshot vars m) :
    dictKeys m.payload ⊆ executedNames m ++ dictKeys vars := by
  induction h with
  | dispatched itin obo cid mid ts r hd =>
      cases itin with
      | nil => simp [dispatch_workflow, RoutingSlip.next_step] at hd
      | cons a t =>
          simp only [dispatch_workflow, RoutingSlip.next_step, List.head?,
            Except.ok.injEq] at hd
          subst hd
          intro x hx
          simp only [executedNames, dictKeys, List.map_nil, List.nil_append]
          exact hx
  | stepped m head out added limit hm hh ih =>
      obtain ⟨t, hit⟩ := next_step_eq_cons _ _ hh
      have hslip1 :
          ((m.routing_slip.insert_activities added limit).1).itinerary =
            head :: (added.take
              (max 0 (limit - m.routing_slip.inserted_steps)).toNat ++ t) := by
        rw [insert_activities_itinerary, hit]
        simp
      have hnext1 :
          ((m.routing_slip.insert_activities added limit).1).next_step =
            some head := by
        simp [RoutingSlip.next_step, hslip1]
      set m1 : PaigeantMessage :=
        { m with
          routing_slip := (m.routing_slip.insert_activities added limit).1,
          payload := dictSet m.payload head.agent_name out } with hm1
      have hfwd := forward_message_of_next m1 head hnext1
      have hmc := mark_complete_head m1.routing_slip head _ hslip1
      rw [handle_activity_success]
      intro x hx
      rw [hfwd] at hx ⊢
      simp only [hmc] at hx ⊢
      simp only [executedNames, insert_activities_executed, List.map_append,
        List.map_cons, List.map_nil] at *
      rcases dictKeys_dictSet m.payload head.agent_name out x hx with h1 | h2
      · subst h1
        simp
      · have := ih h2
        simp only [List.mem_append] at this ⊢
        rcases this with h3 | h4
        · left; left; exact h3
        · right; exact h4

/-- Witness for the amended claim C9 at the dispatched snapshot with
variables `{k: v}`. -/
theorem payload_keys_bounded_witness :
    dictKeys c9_result.message.payload ⊆
      executedNames c9_result.message ++ dictKeys [("k", Json.str "v")] :=
  payload_keys_bounded [("k", Json.str "v")] c9_result.message
    (ReachableSnapshot.dispatched [actA] none "cid-9" "mid-9" "ts-9" c9_result
      rfl)

/-- Claim C10: called on a routing slip whose itinerary is empty, with
non-empty `new_steps` and a positive remaining budget,
`insert_activities` still inserts the allowed prefix — it becomes the new
front of the itinerary, the first inserted step is the next step to
execute — and `inserted_steps` grows by the returned count. -/
theorem insert_activities_empty_itinerary (s : RoutingSlip)
    (steps : List ActivitySpec) (limit : Int)
    (h1 : s.itinerary = []) (h2 : steps ≠ [])
    (h3 : 0 < limit - s.inserted_steps) :
    0 < (s.insert_activities steps limit).2 ∧
    (s.insert_activities steps limit).1.itinerary =
      steps.take (max 0 (limit - s.inserted_steps)).toNat ∧
    (s.insert_activities steps limit).1.next_step = steps.head? ∧
    (s.insert_activities steps limit).1.inserted_steps =
      s.inserted_steps + (s.insert_activities steps limit).2 := by
  have hR : 0 < (max 0 (limit - s.inserted_steps)).toNat := by omega
  have hitin : (s.insert_activities steps limit).1.itinerary =
      steps.take (max 0 (limit - s.inserted_steps)).toNat := by
    rw [insert_activities_itinerary, h1]
    simp
  refine ⟨?_, hitin, ?_, insert_activities_count s steps limit⟩
  · rw [insert_activities_snd, List.length_take]
    have hlen : 0 < steps.length := List.length_pos.mpr h2
    omega
  · rw [RoutingSlip.next_step, hitin]
    cases steps with
    | nil => exact absurd rfl h2
    | cons a t =>
        obtain ⟨k, hk⟩ : ∃ k,
            (max 0 (limit - s.inserted_steps)).toNat = k + 1 := by
          refine ⟨(max 0 (limit - s.inserted_steps)).toNat - 1, ?_⟩
          omega
        rw [hk, List.take_succ_cons]
        rfl

/-- Witness for claim C10: inserting one step into an empty itinerary
with limit 3. -/
theorem insert_activities_empty_itinerary_witness :
    0 < (RoutingSlip.insert_activities { itinerary := [] } [actB] 3).2 ∧
    (RoutingSlip.insert_activities { itinerary := [] } [actB] 3).1.itinerary =
      [actB] ∧
    (RoutingSlip.insert_activities { itinerary := [] } [actB] 3).1.next_step =
      some actB ∧
    (RoutingSlip.insert_activities { itinerary := [] } [actB] 3).1.inserted_steps =
      0 + (RoutingSlip.insert_activities { itinerary := [] } [actB] 3).2 :=
  insert_activities_empty_itinerary { itinerary := [] } [actB] 3 rfl
    (by decide) (by decide)
end Paigeant
